import Mathlib

/-!
# MoneroWalletJni: the native binding layer of monero-java

A shallow embedding of `src/main/cpp/MoneroWalletJni.cpp`.  Every native function
becomes a Lean function that passes an explicit `JniState` around.  The state
holds what the binding code reads and writes: the wallet object behind
`jniWalletHandle`, the `jniListenerHandle` field of the Java instance, the native
listener objects that are alive, the attachment state of the calling thread, and
the sequence of externally visible effects (`trace`) in the order the code
performs them.

Conventions:
* a `jstring` argument is `Option String` (`none` is the null reference);
* unsigned 64-bit values are naturals reduced `% 2^64`, `jlong` values are
  integers in the signed 64-bit range, `jint` values are integers;
* a `double` is carried as its 64-bit pattern, the casts between `double` and
  `jdouble` do not change it;
* `std::lock_guard` on `_listenerMutex` acquires and releases the mutex inside one
  call; in this sequential embedding it has no net effect and is left out;
* `GetStringUTFChars` hands the text of a Java string to `std::string` as it is;
  `NewStringUTF(text.c_str())` reads a C string, so the Java string it makes holds
  the text up to the first NUL character; allocation failures of the runtime are
  not modelled;
* JNI calls that only look something up or manage a local resource (`FindClass`,
  `GetMethodID`, `ReleaseStringUTFChars`, `DeleteLocalRef`) change nothing of the
  state and leave no entry in the trace.
-/

set_option linter.unusedVariables false

namespace MoneroWalletJni

/-! ## Values of the Java side -/

/-- Status codes of `jni.h`. -/
def JNI_OK : Int := 0

/-- Generic error status of `jni.h`. -/
def JNI_ERR : Int := -1

/-- Status of `GetEnv` for a thread that is not attached to the VM. -/
def JNI_EDETACHED : Int := -2

/-- Status of `GetEnv` for an unsupported JNI version. -/
def JNI_EVERSION : Int := -3

/-- Identity of a Java object (a non-null reference). -/
abbrev JObject := Nat

/-- A Java value as it crosses the boundary: an array element, a method argument
or a boxed result. -/
inductive JValue where
  | null
  | string (s : String)
  | long (v : Int)
  | double (bits : Nat)
  | boxedLong (v : Int)
  | boxedBoolean (b : Bool)
  deriving DecidableEq, Repr

/-! ## The wallet library (`wallet/MoneroWallet.h`) -/

/-- Modelled from the spec: `MoneroRpcConnection` is declared in
`wallet/MoneroWallet.h`, which is not among the sources; the binding reads its
three string fields `uri`, `username`, `password`. -/
structure MoneroRpcConnection where
  uri : String
  username : String
  password : String
  deriving DecidableEq, Repr

/-- Modelled from the spec: `MoneroSyncResult` is declared in
`wallet/MoneroWallet.h`; `numBlocksFetched` is an unsigned 64-bit block count
(like the block counts of `MoneroWalletListener::onSyncProgress`) and
`receivedMoney` a boolean. -/
structure MoneroSyncResult where
  numBlocksFetched : Nat
  receivedMoney : Bool
  deriving DecidableEq, Repr

/-- Modelled from the spec: `MoneroBlock` is declared in the wallet library; the
binding reads its unsigned 64-bit `height`. -/
structure MoneroBlock where
  height : Nat
  deriving DecidableEq, Repr

/-- Modelled from the spec: the `MoneroWallet` object of `wallet/MoneroWallet.h`,
as far as the binding uses it: the stored daemon connection, the registered
listener pointer (`0` is `nullptr`), and the values its queries answer with. -/
structure MoneroWallet where
  daemonConnection : MoneroRpcConnection
  listener : Nat
  syncResult : Nat → MoneroSyncResult
  balance : Nat
  balanceAccount : Nat → Nat
  balanceSubaddress : Nat → Nat → Nat
  unlockedBalance : Nat
  unlockedBalanceAccount : Nat → Nat
  unlockedBalanceSubaddress : Nat → Nat → Nat

/-! ## Effects and state -/

/-- An externally visible action of the binding code. -/
inductive Effect where
  | cout (line : String)
  | getEnv
  | attachCurrentThread
  | detachCurrentThread
  | exceptionDescribe
  | newGlobalRef (obj : JObject)
  | deleteGlobalRef (ref : Option JObject)
  | callVoidMethod (ref : JObject) (name : String) (sig : String) (args : List JValue)
  | newListener (addr : Nat)
  | deleteListener (addr : Nat)
  | newWallet (addr : Nat)
  | walletSetListener (ptr : Nat)
  | walletGetDaemonConnection
  | walletSetDaemonConnection (uri : String) (username : String) (password : String)
  | walletSync (startHeight : Nat)
  | walletGetBalance (unlocked : Bool) (indices : List Nat)
  deriving DecidableEq, Repr

/-- The native listener object: `jlistener` is a global reference to the Java
listener, `none` being `nullptr`. -/
structure WalletJniListener where
  jlistener : Option JObject
  deriving DecidableEq, Repr

/-- What the binding code can see and change. -/
structure JniState where
  wallet : MoneroWallet
  jniListenerHandle : Nat
  listeners : List (Nat × WalletJniListener)
  threadAttached : Bool
  versionSupported : Bool
  attachStatus : Int
  listenerRaises : Bool
  exceptionPending : Bool
  trace : List Effect

/-- Record one effect at the end of the trace. -/
def JniState.emit (s : JniState) (e : Effect) : JniState :=
  { s with trace := s.trace ++ [e] }

/-- One line written to `std::cout`. -/
def cout (line : String) (s : JniState) : JniState :=
  s.emit (Effect.cout line)

/-! ## JNI array and string primitives -/

/-- The call `NewObjectArray(n, cls, nullptr)`: `n` null elements. -/
def NewObjectArray (n : Nat) : List JValue :=
  List.replicate n JValue.null

/-- The call `SetObjectArrayElement(array, i, v)`. -/
def SetObjectArrayElement (array : List JValue) (i : Nat) (v : JValue) : List JValue :=
  array.set i v

/-- The text a C string holds when it starts at the buffer of `text`: the characters
before the first NUL character. -/
def cStringOf (text : String) : String :=
  String.mk (text.data.takeWhile (fun c => c != Char.ofNat 0))

/-- The call `NewStringUTF(text.c_str())`: the argument is the buffer of a
`std::string`, read as a C string, so the Java string holds the characters before
the first NUL character. -/
def NewStringUTF (text : String) : JValue :=
  JValue.string (cStringOf text)

/-! ## Wallet calls -/

/-- Modelled from the spec: `MoneroWallet::getDaemonConnection` answers the stored
connection. -/
def walletGetDaemonConnection (s : JniState) : MoneroRpcConnection × JniState :=
  (s.wallet.daemonConnection, s.emit Effect.walletGetDaemonConnection)

/-- Modelled from the spec: `MoneroWallet::setDaemonConnection` replaces the three
stored credentials together. -/
def walletSetDaemonConnection (uri username password : String) (s : JniState) : JniState :=
  { s with
    wallet := { s.wallet with daemonConnection := ⟨uri, username, password⟩ }
    trace := s.trace ++ [Effect.walletSetDaemonConnection uri username password] }

/-- Modelled from the spec: `MoneroWallet::setListener` stores the listener
pointer. -/
def walletSetListener (ptr : Nat) (s : JniState) : JniState :=
  { s with
    wallet := { s.wallet with listener := ptr }
    trace := s.trace ++ [Effect.walletSetListener ptr] }

/-! ## `getDaemonConnectionJni` -/

/-- The function `Java_monero_wallet_MoneroWalletJni_getDaemonConnectionJni`. -/
def getDaemonConnectionJni (s : JniState) : List JValue × JniState :=
  let s := cout "Java_monero_wallet_MoneroWalletJni_getDaemonConnectionJni()" s
  let (daemonConnection, s) := walletGetDaemonConnection s
  let vals := NewObjectArray 3
  let vals := if daemonConnection.uri ≠ "" then
      SetObjectArrayElement vals 0 (NewStringUTF daemonConnection.uri) else vals
  let vals := if daemonConnection.username ≠ "" then
      SetObjectArrayElement vals 1 (NewStringUTF daemonConnection.username) else vals
  let vals := if daemonConnection.password ≠ "" then
      SetObjectArrayElement vals 2 (NewStringUTF daemonConnection.password) else vals
  (vals, s)

/-! ## Attaching the calling thread to the VM -/

/-- The call `cachedJVM->GetEnv(&jenv, JNI_VERSION_1_6)`: `JNI_EDETACHED` for a
thread that is not attached, `JNI_EVERSION` for an unsupported version, `JNI_OK`
otherwise. -/
def GetEnv (s : JniState) : Int × JniState :=
  let s := s.emit Effect.getEnv
  if s.threadAttached = false then (JNI_EDETACHED, s)
  else if s.versionSupported = false then (JNI_EVERSION, s)
  else (JNI_OK, s)

/-- The call `cachedJVM->AttachCurrentThread(&jenv, nullptr)`: status `0` attaches
the thread, any other status leaves it detached. -/
def AttachCurrentThread (s : JniState) : Int × JniState :=
  let s := s.emit Effect.attachCurrentThread
  if s.attachStatus = 0 then (0, { s with threadAttached := true })
  else (s.attachStatus, s)

/-- The call `cachedJVM->DetachCurrentThread()`. -/
def DetachCurrentThread (s : JniState) : JniState :=
  { s with threadAttached := false, trace := s.trace ++ [Effect.detachCurrentThread] }

/-- The call `jenv->ExceptionCheck()`. -/
def ExceptionCheck (s : JniState) : Bool :=
  s.exceptionPending

/-- The call `jenv->ExceptionDescribe()`: prints the pending exception to the error
channel and clears it. -/
def ExceptionDescribe (s : JniState) : JniState :=
  { s with exceptionPending := false, trace := s.trace ++ [Effect.exceptionDescribe] }

/-- The call `jenv->CallVoidMethod(obj, method, args...)` on the Java listener: the
method runs once and may leave an exception pending. -/
def CallVoidMethod (ref : JObject) (name sig : String) (args : List JValue)
    (s : JniState) : JniState :=
  { s with
    exceptionPending := s.exceptionPending || s.listenerRaises
    trace := s.trace ++ [Effect.callVoidMethod ref name sig args] }

/-- The function `attachJVM`. -/
def attachJVM (s : JniState) : Int × JniState :=
  let (envStat, s) := GetEnv s
  if envStat = JNI_EDETACHED then
    let (rc, s) := AttachCurrentThread s
    if rc ≠ 0 then (JNI_ERR, s) else (envStat, s)
  else if envStat = JNI_EVERSION then (JNI_ERR, s)
  else (envStat, s)

/-- The function `detachJVM`. -/
def detachJVM (envStat : Int) (s : JniState) : JniState :=
  let s := if ExceptionCheck s then ExceptionDescribe s else s
  if envStat = JNI_EDETACHED then DetachCurrentThread s else s

/-! ## Integer conversions -/

/-- The conversion `static_cast<jlong>(v)` of an unsigned 64-bit value: the signed
64-bit integer with the same bit pattern. -/
def static_cast_jlong (v : Nat) : Int :=
  if v % 2 ^ 64 < 2 ^ 63 then ((v % 2 ^ 64 : Nat) : Int)
  else ((v % 2 ^ 64 : Nat) : Int) - 2 ^ 64

/-- The conversion of a `jlong` to `uint64_t`. -/
def static_cast_uint64 (v : Int) : Nat :=
  (v % 2 ^ 64).toNat

/-- The conversion of a `jint` to `uint32_t`, the index type of the wallet library
(written out as `(uint32_t) accountIdx` in `getAddressJni`). -/
def static_cast_uint32 (v : Int) : Nat :=
  (v % 2 ^ 32).toNat

/-! ## `WalletJniListener` -/

/-- The constructor `WalletJniListener(env, listener)`: takes a global reference to
the Java listener. -/
def WalletJniListener.ctor (listener : JObject) (s : JniState) :
    WalletJniListener × JniState :=
  (⟨some listener⟩, s.emit (Effect.newGlobalRef listener))

/-- The method `WalletJniListener::deleteGlobalJavaRef`. -/
def WalletJniListener.deleteGlobalJavaRef (self : WalletJniListener) (s : JniState) :
    WalletJniListener × JniState :=
  let s := s.emit (Effect.deleteGlobalRef self.jlistener)
  ({ self with jlistener := none }, s)

/-- The method `WalletJniListener::onNewBlock`. -/
def WalletJniListener.onNewBlock (self : WalletJniListener) (block : MoneroBlock)
    (s : JniState) : JniState :=
  match self.jlistener with
  | none => s
  | some jlistener =>
    let (envStat, s) := attachJVM s
    if envStat = JNI_ERR then s
    else
      let jheight := static_cast_jlong block.height
      let s := CallVoidMethod jlistener "onNewBlock" "(J)V" [JValue.long jheight] s
      detachJVM envStat s

/-- The method `WalletJniListener::onSyncProgress`. -/
def WalletJniListener.onSyncProgress (self : WalletJniListener)
    (startHeight numBlocksDone numBlocksTotal : Nat) (percentDone : Nat)
    (message : String) (s : JniState) : JniState :=
  match self.jlistener with
  | none => s
  | some jlistener =>
    let (envStat, s) := attachJVM s
    if envStat = JNI_ERR then s
    else
      let jstartHeight := static_cast_jlong startHeight
      let jnumBlocksDone := static_cast_jlong numBlocksDone
      let jnumBlocksTotal := static_cast_jlong numBlocksTotal
      let jpercentDone := percentDone
      let jmessage := NewStringUTF message
      let s := CallVoidMethod jlistener "onSyncProgress" "(JJJDLjava/lang/String;)V"
        [JValue.long jstartHeight, JValue.long jnumBlocksDone, JValue.long jnumBlocksTotal,
         JValue.double jpercentDone, jmessage] s
      detachJVM envStat s

/-- A notification the wallet sends to its listener. -/
inductive ListenerCall where
  | newBlock (block : MoneroBlock)
  | syncProgress (startHeight numBlocksDone numBlocksTotal : Nat) (percentDone : Nat)
      (message : String)
  deriving DecidableEq, Repr

/-- Dispatch of one notification to the matching virtual method. -/
def WalletJniListener.notify (self : WalletJniListener) (c : ListenerCall)
    (s : JniState) : JniState :=
  match c with
  | ListenerCall.newBlock block => self.onNewBlock block s
  | ListenerCall.syncProgress a b c p m => self.onSyncProgress a b c p m s

/-- A sequence of notifications, delivered one after the other. -/
def WalletJniListener.notifyAll (self : WalletJniListener) (cs : List ListenerCall)
    (s : JniState) : JniState :=
  cs.foldl (fun st c => self.notify c st) s

/-- Whether an effect is an invocation of a Java method. -/
def Effect.isCall : Effect → Bool
  | Effect.callVoidMethod _ _ _ _ => true
  | _ => false

/-- Whether an effect writes to a log (standard output or the error channel). -/
def Effect.isLog : Effect → Bool
  | Effect.cout _ => true
  | Effect.exceptionDescribe => true
  | _ => false

/-- Whether an effect detaches the calling thread from the VM. -/
def Effect.isDetach : Effect → Bool
  | Effect.detachCurrentThread => true
  | _ => false

/-- The Java method invocations of a trace, in order. -/
def javaCalls (t : List Effect) : List Effect :=
  t.filter Effect.isCall

/-! ## `setListenerJni` -/

/-- Modelled from the spec: `getHandle<WalletJniListener>(env, instance,
"jniListenerHandle")` is declared in `MoneroWalletJni.h`, which is not among the
sources; it reads the integer field of the Java instance and reinterprets it as a
pointer (`0` is `nullptr`). -/
def getListenerHandle (s : JniState) : Nat :=
  s.jniListenerHandle

/-- Storage of a listener object at an address of the native heap. -/
def storeListener (addr : Nat) (obj : WalletJniListener) (s : JniState) : JniState :=
  { s with listeners := (addr, obj) :: s.listeners.filter (fun p => p.1 ≠ addr) }

/-- Release of the memory of a listener object (`delete`). -/
def freeListener (addr : Nat) (s : JniState) : JniState :=
  { s with
    listeners := s.listeners.filter (fun p => p.1 ≠ addr)
    trace := s.trace ++ [Effect.deleteListener addr] }

/-- The function `Java_monero_wallet_MoneroWalletJni_setListenerJni`.  The argument
`newAddr` is the address `new WalletJniListener` yields when it is reached.  The
result is `none` when the handle stored in the instance points to no live listener
(the C++ behaviour is then undefined). -/
def setListenerJni (jlistener : Option JObject) (newAddr : Nat) (s : JniState) :
    Option (Nat × JniState) :=
  let s := cout "Java_monero_wallet_MoneroWalletJni_setListenerJni" s
  let s := walletSetListener 0 s
  let oldListener := getListenerHandle s
  let cleared : Option JniState :=
    if oldListener ≠ 0 then
      match s.listeners.lookup oldListener with
      | none => none
      | some obj =>
        let (obj, s) := obj.deleteGlobalJavaRef s
        let s := storeListener oldListener obj s
        some (freeListener oldListener s)
    else some s
  match cleared with
  | none => none
  | some s =>
    match jlistener with
    | none => some (0, s)
    | some l =>
      let s := s.emit (Effect.newListener newAddr)
      let (listener, s) := WalletJniListener.ctor l s
      let s := storeListener newAddr listener s
      let s := walletSetListener newAddr s
      some (newAddr, s)

/-- The handle stored in the instance is null or points to a live listener. -/
def ListenerHandleValid (s : JniState) : Prop :=
  s.jniListenerHandle = 0 ∨ (s.listeners.lookup s.jniListenerHandle).isSome = true

instance (s : JniState) : Decidable (ListenerHandleValid s) := by
  unfold ListenerHandleValid; exact inferInstance

/-- The effects of clearing the old listener: none for a null handle, otherwise the
release of its Java reference followed by its destruction. -/
def clearEffects (s : JniState) : List Effect :=
  if s.jniListenerHandle = 0 then []
  else
    match s.listeners.lookup s.jniListenerHandle with
    | none => []
    | some obj => [Effect.deleteGlobalRef obj.jlistener, Effect.deleteListener s.jniListenerHandle]

/-- The effects of installing the new listener: none for a null listener, otherwise
its creation followed by its registration on the wallet. -/
def installEffects (jlistener : Option JObject) (newAddr : Nat) : List Effect :=
  match jlistener with
  | none => []
  | some l => [Effect.newListener newAddr, Effect.newGlobalRef l, Effect.walletSetListener newAddr]

/-! ## `setDaemonConnection` -/

/-- The call `env->GetStringUTFChars(str, NULL)` guarded by `str ? ... : nullptr`:
the characters of a present string, `none` (`nullptr`) for a null reference. -/
def GetStringUTFChars (str : Option String) : Option String :=
  str

/-- The helper `setDaemonConnection(env, wallet, juri, jusername, jpassword)`. -/
def setDaemonConnection (juri jusername jpassword : Option String) (s : JniState) :
    JniState :=
  let _url := GetStringUTFChars juri
  let _username := GetStringUTFChars jusername
  let _password := GetStringUTFChars jpassword
  walletSetDaemonConnection
    (if juri.isSome then _url.getD "" else "")
    (if jusername.isSome then _username.getD "" else "")
    (if jpassword.isSome then _password.getD "" else "") s

/-- The function `Java_monero_wallet_MoneroWalletJni_setDaemonConnectionJni`. -/
def setDaemonConnectionJni (juri jusername jpassword : Option String) (s : JniState) :
    JniState :=
  let s := cout "Java_monero_wallet_MoneroWalletJni_setDaemonConnectionJni" s
  setDaemonConnection juri jusername jpassword s

/-- Whether an effect is a `setDaemonConnection` call on the wallet. -/
def Effect.isSetDaemonConnection : Effect → Bool
  | Effect.walletSetDaemonConnection _ _ _ => true
  | _ => false

/-! ## Wallet construction -/

/-- A C++ exception leaving a native function. -/
inductive CppException where
  | runtime_error (what : String)
  deriving DecidableEq, Repr

/-- Whether an effect constructs a wallet. -/
def Effect.isNewWallet : Effect → Bool
  | Effect.newWallet _ => true
  | _ => false

/-- The function `Java_monero_wallet_MoneroWalletJni_createWalletFromMnemonicJni`:
constructs a wallet at the address `newAddr` that `new MoneroWallet` yields and
returns that address as the handle. -/
def createWalletFromMnemonicJni (jmnemonic : String) (jnetworkType : Int)
    (jrestoreHeight : Int) (newAddr : Nat) (s : JniState) : Nat × JniState :=
  let s := cout "Java_monero_wallet_MoneroWalletJni_createWalletFromMnemonicJni" s
  let s := s.emit (Effect.newWallet newAddr)
  (newAddr, s)

/-- The function `Java_monero_wallet_MoneroWalletJni_createWalletFromKeysJni`: it
throws right after its log line. -/
def createWalletFromKeysJni (address viewKey spendKey : Option String)
    (networkType : Int) (restoreHeight : Int) (language : Option String)
    (s : JniState) : Except CppException Nat × JniState :=
  let s := cout "Java_monero_wallet_MoneroWalletJni_createWalletFromKeysJni" s
  (Except.error (CppException.runtime_error "Not implemented"), s)

/-! ## Decimal text of unsigned integers -/

/-- The character of a decimal digit, `'0' + d`. -/
def digitChar (d : Nat) : Char :=
  Char.ofNat (48 + d)

/-- The digit loop of `boost::lexical_cast<std::string>` for an unsigned value: the
last digit is written first, in front of the digits already written.  The first
argument bounds the number of digits. -/
def lcast_put_unsigned : Nat → Nat → List Char → List Char
  | 0, _, acc => acc
  | fuel + 1, n, acc =>
    if n / 10 = 0 then digitChar (n % 10) :: acc
    else lcast_put_unsigned fuel (n / 10) (digitChar (n % 10) :: acc)

/-- The conversion `boost::lexical_cast<std::string>(v)` of a `uint64_t`, which has
at most 20 decimal digits. -/
def lexical_cast (v : Nat) : String :=
  String.mk (lcast_put_unsigned 20 (v % 2 ^ 64) [])

/-- The value of a decimal digit character, if it is one. -/
def digitValue (c : Char) : Option Nat :=
  if 48 ≤ c.toNat ∧ c.toNat ≤ 57 then some (c.toNat - 48) else none

/-- Reading of a list of characters as a natural number in base 10, starting from
the value read so far; `none` when a character is not a digit. -/
def parseDigits : List Char → Nat → Option Nat
  | [], acc => some acc
  | c :: cs, acc =>
    match digitValue c with
    | none => none
    | some d => parseDigits cs (10 * acc + d)

/-- Reading of a text as a natural number in base 10: `none` for the empty text and
for a text with a character that is not a digit (a sign included). -/
def parseDecimal (text : String) : Option Nat :=
  match text.data with
  | [] => none
  | cs => parseDigits cs 0

/-! ## Balances -/

/-- Modelled from the spec: the calls `MoneroWallet::getBalance` and
`MoneroWallet::getUnlockedBalance`; the indices select the scope (none: the
wallet, one: an account, two: a subaddress).  The answer is a `uint64_t`. -/
def walletGetBalance (unlocked : Bool) (indices : List Nat) (s : JniState) :
    Nat × JniState :=
  let w := s.wallet
  let v := match unlocked, indices with
    | false, [] => w.balance
    | false, [a] => w.balanceAccount a
    | false, a :: b :: _ => w.balanceSubaddress a b
    | true, [] => w.unlockedBalance
    | true, [a] => w.unlockedBalanceAccount a
    | true, a :: b :: _ => w.unlockedBalanceSubaddress a b
  (v % 2 ^ 64, s.emit (Effect.walletGetBalance unlocked indices))

/-- The function `Java_monero_wallet_MoneroWalletJni_getBalanceWalletJni`. -/
def getBalanceWalletJni (s : JniState) : JValue × JniState :=
  let s := cout "Java_monero_wallet_MoneroWalletJni_getBalanceWalletJni" s
  let (balance, s) := walletGetBalance false [] s
  (NewStringUTF (lexical_cast balance), s)

/-- The function `Java_monero_wallet_MoneroWalletJni_getBalanceAccountJni`. -/
def getBalanceAccountJni (accountIdx : Int) (s : JniState) : JValue × JniState :=
  let s := cout "Java_monero_wallet_MoneroWalletJni_getBalanceAccountJni" s
  let (balance, s) := walletGetBalance false [static_cast_uint32 accountIdx] s
  (NewStringUTF (lexical_cast balance), s)

/-- The function `Java_monero_wallet_MoneroWalletJni_getBalanceSubaddressJni`. -/
def getBalanceSubaddressJni (accountIdx subaddressIdx : Int) (s : JniState) :
    JValue × JniState :=
  let s := cout "Java_monero_wallet_MoneroWalletJni_getBalanceSubaddressJni" s
  let (balance, s) := walletGetBalance false
    [static_cast_uint32 accountIdx, static_cast_uint32 subaddressIdx] s
  (NewStringUTF (lexical_cast balance), s)

/-- The function `Java_monero_wallet_MoneroWalletJni_getUnlockedBalanceWalletJni`. -/
def getUnlockedBalanceWalletJni (s : JniState) : JValue × JniState :=
  let s := cout "Java_monero_wallet_MoneroWalletJni_getUnlockedBalanceWalletJni" s
  let (balance, s) := walletGetBalance true [] s
  (NewStringUTF (lexical_cast balance), s)

/-- The function `Java_monero_wallet_MoneroWalletJni_getUnlockedBalanceAccountJni`. -/
def getUnlockedBalanceAccountJni (accountIdx : Int) (s : JniState) : JValue × JniState :=
  let s := cout "Java_monero_wallet_MoneroWalletJni_getUnlockedBalanceAccountJni" s
  let (balance, s) := walletGetBalance true [static_cast_uint32 accountIdx] s
  (NewStringUTF (lexical_cast balance), s)

/-- The function
`Java_monero_wallet_MoneroWalletJni_getUnlockedBalanceSubaddressJni`. -/
def getUnlockedBalanceSubaddressJni (accountIdx subaddressIdx : Int) (s : JniState) :
    JValue × JniState :=
  let s := cout "Java_monero_wallet_MoneroWalletJni_getUnlockedBalanceSubaddressJni" s
  let (balance, s) := walletGetBalance true
    [static_cast_uint32 accountIdx, static_cast_uint32 subaddressIdx] s
  (NewStringUTF (lexical_cast balance), s)

/-- The Java value is a string that is the plain base-10 form of the amount `b`:
only digits, at least one, no leading zero unless the text is "0", and its reading
is `b`. -/
def IsDecimalOf (v : JValue) (b : Nat) : Prop :=
  match v with
  | JValue.string text =>
    text.data ≠ []
      ∧ (∀ c ∈ text.data, (digitValue c).isSome = true)
      ∧ (text.data.head? = some '0' → text = "0")
      ∧ parseDecimal text = some b
  | _ => False

instance (v : JValue) (b : Nat) : Decidable (IsDecimalOf v b) := by
  unfold IsDecimalOf; split <;> exact inferInstance

/-! ## `syncJni` -/

/-- Modelled from the spec: `MoneroWallet::sync(startHeight)` takes an unsigned
64-bit height and answers a `MoneroSyncResult`. -/
def walletSync (startHeight : Nat) (s : JniState) : MoneroSyncResult × JniState :=
  (s.wallet.syncResult startHeight, s.emit (Effect.walletSync startHeight))

/-- Whether an effect is a `sync` call on the wallet. -/
def Effect.isSync : Effect → Bool
  | Effect.walletSync _ => true
  | _ => false

/-- The function `Java_monero_wallet_MoneroWalletJni_syncJni`. -/
def syncJni (startHeight : Int) (s : JniState) : List JValue × JniState :=
  let s := cout "Java_monero_wallet_MoneroWalletJni_syncJni" s
  let (result, s) := walletSync (static_cast_uint64 startHeight) s
  let s := cout ("Done syncing.  Blocks fetched: " ++ lexical_cast result.numBlocksFetched
    ++ ", received money: " ++ (if result.receivedMoney then "1" else "0")) s
  let results := NewObjectArray 2
  let numBlocksFetchedWrapped := JValue.boxedLong (static_cast_jlong result.numBlocksFetched)
  let results := SetObjectArrayElement results 0 numBlocksFetchedWrapped
  let receivedMoneyWrapped := JValue.boxedBoolean result.receivedMoney
  let results := SetObjectArrayElement results 1 receivedMoneyWrapped
  (results, s)

/-- A wallet whose queries answer with fixed values, for concrete evaluations. -/
def sampleWallet (conn : MoneroRpcConnection) (listener : Nat) : MoneroWallet :=
  { daemonConnection := conn
    listener := listener
    syncResult := fun _ => ⟨0, false⟩
    balance := 0
    balanceAccount := fun _ => 0
    balanceSubaddress := fun _ _ => 0
    unlockedBalance := 0
    unlockedBalanceAccount := fun _ => 0
    unlockedBalanceSubaddress := fun _ _ => 0 }

/-- A state with the given wallet, no listener, an attached thread and an empty
trace. -/
def sampleState (w : MoneroWallet) : JniState :=
  { wallet := w
    jniListenerHandle := 0
    listeners := []
    threadAttached := true
    versionSupported := true
    attachStatus := 0
    listenerRaises := false
    exceptionPending := false
    trace := [] }

/-- A state whose instance holds the handle `5` of a live listener that refers to
the Java object `1`, registered on the wallet. -/
def stateWithListener : JniState :=
  { sampleState (sampleWallet ⟨"", "", ""⟩ 5) with
    jniListenerHandle := 5
    listeners := [(5, ⟨some 1⟩)] }

/-- A state whose calling thread is detached and cannot be attached. -/
def stateAttachFails : JniState :=
  { sampleState (sampleWallet ⟨"", "", ""⟩ 0) with
    threadAttached := false
    attachStatus := -1 }

/-- A state whose calling thread is detached and whose Java listener raises. -/
def stateListenerRaises : JniState :=
  { sampleState (sampleWallet ⟨"", "", ""⟩ 0) with
    threadAttached := false
    listenerRaises := true }

/-- A wallet that answers every balance query with the largest unsigned 64-bit
amount, and every sync with `2^63` fetched blocks. -/
def fullWallet : MoneroWallet :=
  { daemonConnection := ⟨"", "", ""⟩
    listener := 0
    syncResult := fun _ => ⟨2 ^ 63, true⟩
    balance := 2 ^ 64 - 1
    balanceAccount := fun _ => 2 ^ 64 - 1
    balanceSubaddress := fun _ _ => 2 ^ 64 - 1
    unlockedBalance := 2 ^ 64 - 1
    unlockedBalanceAccount := fun _ => 2 ^ 64 - 1
    unlockedBalanceSubaddress := fun _ _ => 2 ^ 64 - 1 }

/-- A state whose calling thread is attached to a VM that does not support the
requested JNI version. -/
def stateVersionUnsupported : JniState :=
  { sampleState (sampleWallet ⟨"", "", ""⟩ 0) with versionSupported := false }

/-- How `getDaemonConnectionJni` renders one field: a null element for the empty
string, otherwise the Java string with the text up to the first NUL character. -/
def fieldElement (field : String) : JValue :=
  if field = "" then JValue.null else JValue.string (cStringOf field)

/-- A wallet whose balances differ from scope to scope. -/
def indexedWallet : MoneroWallet :=
  { daemonConnection := ⟨"", "", ""⟩
    listener := 0
    syncResult := fun _ => ⟨0, false⟩
    balance := 2 ^ 64 - 1
    balanceAccount := fun a => a + 10
    balanceSubaddress := fun a b => 1000 * a + b
    unlockedBalance := 2 ^ 63
    unlockedBalanceAccount := fun a => a + 20
    unlockedBalanceSubaddress := fun a b => 2000 * a + b }

/-- A daemon connection whose uri starts with a NUL character. -/
def nulConnection : MoneroRpcConnection :=
  ⟨String.mk [Char.ofNat 0, 'a', 'b', 'c'], String.mk ['u', Char.ofNat 0, 'x'], "pw"⟩

/-- A progress message with a NUL character in the middle. -/
def nulMessage : String :=
  String.mk ['a', Char.ofNat 0, 'b']

/-! ## Theorems -/

/-- C1 (counterexample): for a wallet whose daemon connection has three empty
fields, `getDaemonConnectionJni` returns three null elements, not three empty
strings. -/
theorem getDaemonConnectionJni_empty_fields_are_null :
    (getDaemonConnectionJni (sampleState (sampleWallet ⟨"", "", ""⟩ 0))).1
        = [JValue.null, JValue.null, JValue.null]
      ∧ (getDaemonConnectionJni (sampleState (sampleWallet ⟨"", "", ""⟩ 0))).1
        ≠ [JValue.string "", JValue.string "", JValue.string ""] := by
  constructor
  · rfl
  · decide

/-- The C string of a text has no NUL character, is a prefix of the text, and is the
whole text when that has no NUL character; otherwise a NUL character follows it in
the text. -/
theorem cStringOf_spec (text : String) :
    Char.ofNat 0 ∉ (cStringOf text).data
      ∧ (cStringOf text).data <+: text.data
      ∧ (Char.ofNat 0 ∉ text.data → cStringOf text = text)
      ∧ (Char.ofNat 0 ∈ text.data →
          ∃ rest, text.data = (cStringOf text).data ++ Char.ofNat 0 :: rest) := by
  have hgen : ∀ l : List Char,
      Char.ofNat 0 ∉ l.takeWhile (fun c => c != Char.ofNat 0)
        ∧ (Char.ofNat 0 ∉ l → l.takeWhile (fun c => c != Char.ofNat 0) = l)
        ∧ (Char.ofNat 0 ∈ l →
            ∃ rest, l = l.takeWhile (fun c => c != Char.ofNat 0) ++ Char.ofNat 0 :: rest) := by
    intro l
    induction l with
    | nil => simp
    | cons c cs ih =>
      obtain ⟨i1, i2, i3⟩ := ih
      by_cases hc : c = Char.ofNat 0
      · subst hc
        refine ⟨by simp [List.takeWhile], fun h => absurd (List.mem_cons_self _ _) h,
          fun _ => ⟨cs, by simp [List.takeWhile]⟩⟩
      · have hb : (c != Char.ofNat 0) = true := by simpa using hc
        have htw : (c :: cs).takeWhile (fun c => c != Char.ofNat 0)
            = c :: cs.takeWhile (fun c => c != Char.ofNat 0) := by
          simp [List.takeWhile, hb]
        rw [htw]
        refine ⟨?_, ?_, ?_⟩
        · intro hm
          rcases List.mem_cons.mp hm with h | h
          · exact hc h.symm
          · exact i1 h
        · intro hm
          rw [i2 (fun h => hm (List.mem_cons_of_mem _ h))]
        · intro hm
          rcases List.mem_cons.mp hm with h | h
          · exact absurd h.symm hc
          · obtain ⟨rest, hr⟩ := i3 h
            exact ⟨rest, by rw [List.cons_append, ← hr]⟩
  obtain ⟨g1, g2, g3⟩ := hgen text.data
  refine ⟨g1, List.takeWhile_prefix _, ?_, g3⟩
  intro h
  exact String.ext (g2 h)

/-- C1 (amended): for every wallet state, `getDaemonConnectionJni` returns a
3-element array holding uri, username, password in that order.  An element is null
exactly when its field is empty; a non-empty field is returned as the Java string
with its text up to the first NUL character, which is the whole text when the field
has no NUL character. -/
theorem getDaemonConnectionJni_triple (s : JniState) :
    (getDaemonConnectionJni s).1
        = [fieldElement s.wallet.daemonConnection.uri,
           fieldElement s.wallet.daemonConnection.username,
           fieldElement s.wallet.daemonConnection.password]
      ∧ (getDaemonConnectionJni s).1.length = 3
      ∧ (∀ field : String, fieldElement field = JValue.null ↔ field = "")
      ∧ (∀ field : String, field ≠ "" →
          fieldElement field = JValue.string (cStringOf field)
            ∧ Char.ofNat 0 ∉ (cStringOf field).data
            ∧ (cStringOf field).data <+: field.data
            ∧ (Char.ofNat 0 ∈ field.data →
                ∃ rest, field.data = (cStringOf field).data ++ Char.ofNat 0 :: rest))
      ∧ (∀ field : String, field ≠ "" → Char.ofNat 0 ∉ field.data →
          fieldElement field = JValue.string field) := by
  have h : (getDaemonConnectionJni s).1
        = [fieldElement s.wallet.daemonConnection.uri,
           fieldElement s.wallet.daemonConnection.username,
           fieldElement s.wallet.daemonConnection.password] := by
    simp only [getDaemonConnectionJni, walletGetDaemonConnection, cout, JniState.emit,
      NewObjectArray, SetObjectArrayElement, NewStringUTF, fieldElement]
    by_cases h1 : s.wallet.daemonConnection.uri = "" <;>
    by_cases h2 : s.wallet.daemonConnection.username = "" <;>
    by_cases h3 : s.wallet.daemonConnection.password = "" <;>
    simp [h1, h2, h3, List.replicate]
  refine ⟨h, by rw [h]; rfl, ?_, ?_, ?_⟩
  · intro field
    unfold fieldElement
    by_cases hf : field = "" <;> simp [hf]
  · intro field hf
    obtain ⟨c1, c2, _, c4⟩ := cStringOf_spec field
    exact ⟨by simp [fieldElement, hf], c1, c2, c4⟩
  · intro field hf hn
    simp only [fieldElement, hf, if_false]
    rw [(cStringOf_spec field).2.2.1 hn]

/-- C1 (amended), at a concrete input: a connection whose uri starts with a NUL
character, whose username has one in the middle, and whose password has none. -/
theorem getDaemonConnectionJni_triple_witness :
    (getDaemonConnectionJni (sampleState (sampleWallet nulConnection 0))).1
        = [JValue.string "", JValue.string "u", JValue.string "pw"]
      ∧ fieldElement "pw" = JValue.string "pw" := by
  have h := getDaemonConnectionJni_triple (sampleState (sampleWallet nulConnection 0))
  exact ⟨by rw [h.1]; decide, h.2.2.2.2 "pw" (by decide) (by decide)⟩

/-! ### `setListenerJni` -/

/-- After the entries with key `a` are filtered out, looking `a` up finds nothing. -/
theorem lookup_filter_ne {β : Type} (a : Nat) (l : List (Nat × β)) :
    List.lookup a (l.filter (fun p => p.1 ≠ a)) = none := by
  induction l with
  | nil => rfl
  | cons p l ih =>
    rw [List.filter_cons]
    by_cases hp : p.1 = a
    · have h1 : decide (p.1 ≠ a) = false := by simp [hp]
      rw [h1]
      exact ih
    · have h1 : decide (p.1 ≠ a) = true := by simp [hp]
      have hne : (a == p.1) = false := by
        simp only [beq_eq_false_iff_ne, ne_eq]; exact fun h => hp h.symm
      rw [h1]
      obtain ⟨k, v⟩ := p
      simp only [if_true, List.lookup_cons]
      simp only [] at hne
      rw [hne]
      exact ih

/-- Looking up the address a listener was just stored at finds that listener. -/
theorem lookup_storeListener (addr : Nat) (obj : WalletJniListener) (s : JniState) :
    (storeListener addr obj s).listeners.lookup addr = some obj := by
  simp [storeListener, List.lookup]

/-- The outcome of `setListenerJni` on a state with a null listener handle. -/
theorem setListenerJni_of_null_handle (jlistener : Option JObject) (newAddr : Nat)
    (s : JniState) (h : s.jniListenerHandle = 0) :
    setListenerJni jlistener newAddr s =
      match jlistener with
      | none => some (0, walletSetListener 0
          (cout "Java_monero_wallet_MoneroWalletJni_setListenerJni" s))
      | some l => some (newAddr, walletSetListener newAddr
          (storeListener newAddr ⟨some l⟩
            (((walletSetListener 0
              (cout "Java_monero_wallet_MoneroWalletJni_setListenerJni" s)).emit
                (Effect.newListener newAddr)).emit (Effect.newGlobalRef l)))) := by
  cases jlistener <;>
    simp [setListenerJni, getListenerHandle, walletSetListener, cout, JniState.emit, h,
      WalletJniListener.ctor]

/-- The outcome of `setListenerJni` on a state whose listener handle is live. -/
theorem setListenerJni_of_live_handle (jlistener : Option JObject) (newAddr : Nat)
    (s : JniState) (obj : WalletJniListener) (h0 : s.jniListenerHandle ≠ 0)
    (h : s.listeners.lookup s.jniListenerHandle = some obj) :
    setListenerJni jlistener newAddr s =
      match jlistener with
      | none => some (0, freeListener s.jniListenerHandle
          (storeListener s.jniListenerHandle ⟨none⟩
            ((walletSetListener 0
              (cout "Java_monero_wallet_MoneroWalletJni_setListenerJni" s)).emit
                (Effect.deleteGlobalRef obj.jlistener))))
      | some l => some (newAddr, walletSetListener newAddr
          (storeListener newAddr ⟨some l⟩
            (((freeListener s.jniListenerHandle
              (storeListener s.jniListenerHandle ⟨none⟩
                ((walletSetListener 0
                  (cout "Java_monero_wallet_MoneroWalletJni_setListenerJni" s)).emit
                    (Effect.deleteGlobalRef obj.jlistener)))).emit
                (Effect.newListener newAddr)).emit (Effect.newGlobalRef l)))) := by
  cases jlistener <;>
    simp [setListenerJni, getListenerHandle, walletSetListener, cout, JniState.emit, h0, h,
      WalletJniListener.ctor, WalletJniListener.deleteGlobalJavaRef]

/-- C2 (counterexample): with the listener of handle `5` registered, clearing the
listener returns `0` and not `5`; with no listener registered, setting a listener
returns the new handle `7` and not `0`. -/
theorem setListenerJni_does_not_return_previous :
    stateWithListener.jniListenerHandle = 5
      ∧ stateWithListener.wallet.listener = 5
      ∧ (setListenerJni none 7 stateWithListener).map Prod.fst = some 0
      ∧ (sampleState (sampleWallet ⟨"", "", ""⟩ 0)).jniListenerHandle = 0
      ∧ (setListenerJni (some 2) 7 (sampleState (sampleWallet ⟨"", "", ""⟩ 0))).map Prod.fst
          = some 7 := by
  refine ⟨rfl, rfl, ?_, rfl, ?_⟩ <;> rfl

/-- C2 (amended): for every call `setListenerJni l` on a state whose stored listener
handle is null or live, the returned handle is the handle of the listener this call
created and registered on the wallet when `l` is a listener, and `0` when `l` is
none, whatever listener was registered before the call. -/
theorem setListenerJni_returns_new_handle (jlistener : Option JObject) (newAddr : Nat)
    (s : JniState) (hv : ListenerHandleValid s) :
    ∃ r s', setListenerJni jlistener newAddr s = some (r, s')
      ∧ r = s'.wallet.listener
      ∧ (jlistener = none → r = 0)
      ∧ (∀ l, jlistener = some l →
          r = newAddr ∧ s'.listeners.lookup r = some ⟨some l⟩) := by
  by_cases h0 : s.jniListenerHandle = 0
  · rw [setListenerJni_of_null_handle jlistener newAddr s h0]
    cases jlistener with
    | none =>
      refine ⟨0, _, rfl, rfl, fun _ => rfl, ?_⟩
      intro l hl
      cases hl
    | some l =>
      refine ⟨newAddr, _, rfl, rfl, ?_, ?_⟩
      · intro hl
        cases hl
      · intro l2 hl
        cases hl
        exact ⟨rfl, lookup_storeListener newAddr ⟨some l⟩ _⟩
  · have h : (s.listeners.lookup s.jniListenerHandle).isSome = true := by
      rcases hv with h | h
      · exact absurd h h0
      · exact h
    obtain ⟨obj, hobj⟩ := Option.isSome_iff_exists.mp h
    rw [setListenerJni_of_live_handle jlistener newAddr s obj h0 hobj]
    cases jlistener with
    | none =>
      refine ⟨0, _, rfl, rfl, fun _ => rfl, ?_⟩
      intro l hl
      cases hl
    | some l =>
      refine ⟨newAddr, _, rfl, rfl, ?_, ?_⟩
      · intro hl
        cases hl
      · intro l2 hl
        cases hl
        exact ⟨rfl, lookup_storeListener newAddr ⟨some l⟩ _⟩

/-- C2 (amended), at a concrete input: replacing the live listener `5` by a new
listener allocated at `7`. -/
theorem setListenerJni_returns_new_handle_witness :
    ListenerHandleValid stateWithListener
      ∧ ∃ r s', setListenerJni (some 2) 7 stateWithListener = some (r, s')
        ∧ r = s'.wallet.listener
        ∧ ((some 2 : Option JObject) = none → r = 0)
        ∧ (∀ l, (some 2 : Option JObject) = some l →
            r = 7 ∧ s'.listeners.lookup r = some ⟨some l⟩) :=
  ⟨by decide, setListenerJni_returns_new_handle (some 2) 7 stateWithListener (by decide)⟩

/-- C3: for every call of `setListenerJni` on a state whose stored listener handle is
null or live, the effects are, in this order: the log line, the wallet listener set
to none, then (for a non-null old handle) the release of the old Java reference and
the destruction of the old listener, then (for a non-null new listener) the creation
of the new listener and its registration on the wallet.  With a null new listener
nothing is registered and the wallet is left with none. -/
theorem setListenerJni_effect_order (jlistener : Option JObject) (newAddr : Nat)
    (s : JniState) (hv : ListenerHandleValid s) :
    ∃ r s', setListenerJni jlistener newAddr s = some (r, s')
      ∧ s'.trace = s.trace
          ++ [Effect.cout "Java_monero_wallet_MoneroWalletJni_setListenerJni",
              Effect.walletSetListener 0]
          ++ clearEffects s ++ installEffects jlistener newAddr
      ∧ (jlistener = none → s'.wallet.listener = 0)
      ∧ (s.jniListenerHandle ≠ 0 → newAddr ≠ s.jniListenerHandle →
          s'.listeners.lookup s.jniListenerHandle = none) := by
  by_cases h0 : s.jniListenerHandle = 0
  · rw [setListenerJni_of_null_handle jlistener newAddr s h0]
    cases jlistener with
    | none =>
      refine ⟨_, _, rfl, ?_, fun _ => rfl, fun h => absurd h0 h⟩
      simp [walletSetListener, cout, JniState.emit, clearEffects, h0, installEffects]
    | some l =>
      refine ⟨_, _, rfl, ?_, ?_, fun h => absurd h0 h⟩
      · simp [walletSetListener, cout, JniState.emit, clearEffects, h0, installEffects,
          storeListener]
      · intro h
        cases h
  · have h : (s.listeners.lookup s.jniListenerHandle).isSome = true := by
      rcases hv with h | h
      · exact absurd h h0
      · exact h
    obtain ⟨obj, hobj⟩ := Option.isSome_iff_exists.mp h
    rw [setListenerJni_of_live_handle jlistener newAddr s obj h0 hobj]
    cases jlistener with
    | none =>
      refine ⟨_, _, rfl, ?_, fun _ => rfl, fun _ _ => ?_⟩
      · simp [walletSetListener, cout, JniState.emit, clearEffects, h0, hobj,
          installEffects, storeListener, freeListener]
      · simp only [freeListener]
        exact lookup_filter_ne _ _
    | some l =>
      refine ⟨_, _, rfl, ?_, ?_, fun _ hne => ?_⟩
      · simp [walletSetListener, cout, JniState.emit, clearEffects, h0, hobj,
          installEffects, storeListener, freeListener]
      · intro h
        cases h
      · have hne2 : (s.jniListenerHandle == newAddr) = false := by
          simp only [beq_eq_false_iff_ne, ne_eq]; exact fun h => hne h.symm
        simp only [walletSetListener, storeListener, freeListener, JniState.emit,
          List.lookup, hne2]
        rw [List.filter_filter]
        have hswap : (fun a : Nat × WalletJniListener =>
            (decide (a.1 ≠ newAddr) && decide (a.1 ≠ s.jniListenerHandle)))
            = (fun a => (decide (a.1 ≠ s.jniListenerHandle) && decide (a.1 ≠ newAddr))) := by
          funext a; exact Bool.and_comm _ _
        rw [hswap, ← List.filter_filter]
        exact lookup_filter_ne _ _

/-- C3, at a concrete input: replacing the live listener `5` (Java object `1`) by a
new listener for the Java object `2` allocated at `7`. -/
theorem setListenerJni_effect_order_witness :
    ListenerHandleValid stateWithListener
      ∧ ∃ r s', setListenerJni (some 2) 7 stateWithListener = some (r, s')
        ∧ s'.trace = stateWithListener.trace
            ++ [Effect.cout "Java_monero_wallet_MoneroWalletJni_setListenerJni",
                Effect.walletSetListener 0]
            ++ clearEffects stateWithListener ++ installEffects (some 2) 7
        ∧ ((some 2 : Option JObject) = none → s'.wallet.listener = 0)
        ∧ (stateWithListener.jniListenerHandle ≠ 0 → 7 ≠ stateWithListener.jniListenerHandle →
            s'.listeners.lookup stateWithListener.jniListenerHandle = none) :=
  ⟨by decide, setListenerJni_effect_order (some 2) 7 stateWithListener (by decide)⟩

/-! ### Callbacks of a listener without Java reference -/

/-- A listener whose Java reference is null leaves the state as it is, for every
sequence of notifications. -/
theorem notifyAll_of_null (self : WalletJniListener) (h : self.jlistener = none)
    (cs : List ListenerCall) (s : JniState) : self.notifyAll cs s = s := by
  induction cs generalizing s with
  | nil => rfl
  | cons c cs ih =>
    have hc : self.notify c s = s := by
      cases c <;>
        simp [WalletJniListener.notify, WalletJniListener.onNewBlock,
          WalletJniListener.onSyncProgress, h]
    simp only [WalletJniListener.notifyAll, List.foldl_cons, hc]
    exact ih s

/-- C4: for a listener whose Java reference is null, `onNewBlock` and
`onSyncProgress` return the state they were given: the thread is not attached and
no Java method is invoked.  After `deleteGlobalJavaRef` the reference is null, so
no later sequence of notifications through that listener has any effect. -/
theorem callbacks_are_noops_without_listener (self : WalletJniListener)
    (h : self.jlistener = none) (block : MoneroBlock)
    (startHeight numBlocksDone numBlocksTotal percentDone : Nat) (message : String)
    (s : JniState) :
    self.onNewBlock block s = s
      ∧ self.onSyncProgress startHeight numBlocksDone numBlocksTotal percentDone message s = s
      ∧ (∀ (l : WalletJniListener) (s0 : JniState),
          (l.deleteGlobalJavaRef s0).1.jlistener = none
          ∧ ∀ (cs : List ListenerCall) (s1 : JniState),
              (l.deleteGlobalJavaRef s0).1.notifyAll cs s1 = s1) := by
  refine ⟨by simp [WalletJniListener.onNewBlock, h],
    by simp [WalletJniListener.onSyncProgress, h], fun l s0 => ⟨rfl, fun cs s1 => ?_⟩⟩
  exact notifyAll_of_null _ rfl cs s1

/-- C4, at a concrete input: a listener without Java reference on a thread that is
not attached. -/
theorem callbacks_are_noops_without_listener_witness :
    (⟨none⟩ : WalletJniListener).jlistener = none
      ∧ (⟨none⟩ : WalletJniListener).onNewBlock ⟨100⟩ stateAttachFails = stateAttachFails
      ∧ (⟨none⟩ : WalletJniListener).onSyncProgress 1 2 3 4 "m" stateAttachFails
          = stateAttachFails
      ∧ (∀ (l : WalletJniListener) (s0 : JniState),
          (l.deleteGlobalJavaRef s0).1.jlistener = none
          ∧ ∀ (cs : List ListenerCall) (s1 : JniState),
              (l.deleteGlobalJavaRef s0).1.notifyAll cs s1 = s1) :=
  ⟨rfl, callbacks_are_noops_without_listener ⟨none⟩ rfl ⟨100⟩ 1 2 3 4 "m" stateAttachFails⟩

/-! ### `createWalletFromKeysJni` -/

/-- C6: for every combination of arguments, `createWalletFromKeysJni` fails with the
exception `runtime_error("Not implemented")`: it returns no handle, and its only
effect is its log line, so no wallet is constructed. -/
theorem createWalletFromKeysJni_always_fails (address viewKey spendKey : Option String)
    (networkType restoreHeight : Int) (language : Option String) (s : JniState) :
    (createWalletFromKeysJni address viewKey spendKey networkType restoreHeight language s).1
        = Except.error (CppException.runtime_error "Not implemented")
      ∧ (∀ handle : Nat,
          (createWalletFromKeysJni address viewKey spendKey networkType restoreHeight
            language s).1 ≠ Except.ok handle)
      ∧ (createWalletFromKeysJni address viewKey spendKey networkType restoreHeight
            language s).2.trace
          = s.trace ++ [Effect.cout "Java_monero_wallet_MoneroWalletJni_createWalletFromKeysJni"]
      ∧ ((createWalletFromKeysJni address viewKey spendKey networkType restoreHeight
            language s).2.trace.filter Effect.isNewWallet
          = s.trace.filter Effect.isNewWallet) := by
  refine ⟨rfl, ?_, rfl, ?_⟩
  · intro handle hh
    simp [createWalletFromKeysJni] at hh
  · simp [createWalletFromKeysJni, cout, JniState.emit, Effect.isNewWallet]

/-! ### `setDaemonConnectionJni` -/

/-- C8: for every triple of optional strings, `setDaemonConnectionJni` makes exactly
one `setDaemonConnection` call on the wallet, right after its log line, carrying
uri, username and password in that order, a null argument replaced by the empty
string and a present argument passed as it is; the wallet then stores that
triple. -/
theorem setDaemonConnectionJni_single_call (juri jusername jpassword : Option String)
    (s : JniState) :
    (setDaemonConnectionJni juri jusername jpassword s).trace
        = s.trace ++ [Effect.cout "Java_monero_wallet_MoneroWalletJni_setDaemonConnectionJni",
            Effect.walletSetDaemonConnection (juri.getD "") (jusername.getD "")
              (jpassword.getD "")]
      ∧ ((setDaemonConnectionJni juri jusername jpassword s).trace.filter
            Effect.isSetDaemonConnection).length
          = (s.trace.filter Effect.isSetDaemonConnection).length + 1
      ∧ (∀ u n p : String,
          (setDaemonConnectionJni (some u) (some n) (some p) s).trace.getLast?
            = some (Effect.walletSetDaemonConnection u n p))
      ∧ (setDaemonConnectionJni none none none s).trace.getLast?
            = some (Effect.walletSetDaemonConnection "" "" "")
      ∧ (setDaemonConnectionJni juri jusername jpassword s).wallet.daemonConnection
          = ⟨juri.getD "", jusername.getD "", jpassword.getD ""⟩ := by
  have h : ∀ a b c : Option String, (setDaemonConnectionJni a b c s).trace
        = s.trace ++ [Effect.cout "Java_monero_wallet_MoneroWalletJni_setDaemonConnectionJni",
            Effect.walletSetDaemonConnection (a.getD "") (b.getD "") (c.getD "")] := by
    intro a b c
    cases a <;> cases b <;> cases c <;>
      simp [setDaemonConnectionJni, setDaemonConnection, walletSetDaemonConnection, cout,
        JniState.emit, GetStringUTFChars]
  refine ⟨h _ _ _, ?_, ?_, ?_, ?_⟩
  · rw [h]
    simp [List.filter_append, Effect.isSetDaemonConnection, List.filter]
  · intro u n p
    rw [h]
    simp
  · rw [h]
    simp
  · cases juri <;> cases jusername <;> cases jpassword <;>
      simp [setDaemonConnectionJni, setDaemonConnection, walletSetDaemonConnection, cout,
        JniState.emit, GetStringUTFChars]

/-! ### Attaching and detaching -/

/-- The four outcomes of `attachJVM`, by the attachment state of the thread, the
support for the JNI version and the status of `AttachCurrentThread`. -/
theorem attachJVM_cases (s : JniState) :
    (s.threadAttached = true ∧ s.versionSupported = true
        ∧ attachJVM s = (JNI_OK, s.emit Effect.getEnv))
      ∨ (s.threadAttached = true ∧ s.versionSupported = false
        ∧ attachJVM s = (JNI_ERR, s.emit Effect.getEnv))
      ∨ (s.threadAttached = false ∧ s.attachStatus = 0
        ∧ attachJVM s = (JNI_EDETACHED,
            { (s.emit Effect.getEnv).emit Effect.attachCurrentThread with
              threadAttached := true }))
      ∨ (s.threadAttached = false ∧ s.attachStatus ≠ 0
        ∧ attachJVM s = (JNI_ERR, (s.emit Effect.getEnv).emit Effect.attachCurrentThread)) := by
  cases ha : s.threadAttached
  · by_cases hr : s.attachStatus = 0
    · right; right; left
      refine ⟨rfl, hr, ?_⟩
      simp [attachJVM, GetEnv, AttachCurrentThread, JniState.emit, ha, hr]
    · right; right; right
      refine ⟨rfl, hr, ?_⟩
      simp [attachJVM, GetEnv, AttachCurrentThread, JniState.emit, ha, hr]
  · cases hv : s.versionSupported
    · right; left
      refine ⟨rfl, rfl, ?_⟩
      simp [attachJVM, GetEnv, JniState.emit, ha, hv, JNI_EVERSION, JNI_EDETACHED]
    · left
      refine ⟨rfl, rfl, ?_⟩
      simp [attachJVM, GetEnv, JniState.emit, ha, hv, JNI_EVERSION, JNI_EDETACHED, JNI_OK]

/-- Attaching invokes no Java method, writes no log, and leaves the pending
exception and the behaviour of the Java listener as they are. -/
theorem attachJVM_frame (s : JniState) :
    javaCalls (attachJVM s).2.trace = javaCalls s.trace
      ∧ (attachJVM s).2.trace.filter Effect.isLog = s.trace.filter Effect.isLog
      ∧ (attachJVM s).2.exceptionPending = s.exceptionPending
      ∧ (attachJVM s).2.listenerRaises = s.listenerRaises := by
  rcases attachJVM_cases s with ⟨_, _, h⟩ | ⟨_, _, h⟩ | ⟨_, _, h⟩ | ⟨_, _, h⟩ <;>
    rw [h] <;>
    simp [javaCalls, JniState.emit, List.filter_append, Effect.isCall, Effect.isLog,
      List.filter]

/-- Detaching invokes no Java method, clears the pending exception, and logs it
when there is one. -/
theorem detachJVM_frame (envStat : Int) (s : JniState) :
    javaCalls (detachJVM envStat s).trace = javaCalls s.trace
      ∧ (detachJVM envStat s).trace.filter Effect.isLog
          = s.trace.filter Effect.isLog
            ++ (if s.exceptionPending then [Effect.exceptionDescribe] else [])
      ∧ (detachJVM envStat s).exceptionPending = false := by
  cases hp : s.exceptionPending <;> by_cases he : envStat = JNI_EDETACHED <;>
    simp [detachJVM, ExceptionCheck, ExceptionDescribe, DetachCurrentThread, javaCalls,
      List.filter_append, Effect.isCall, Effect.isLog, List.filter, hp, he]

/-- The outcome of `onNewBlock` for a listener with a Java reference. -/
theorem onNewBlock_of_ref (self : WalletJniListener) (ref : JObject)
    (hs : self.jlistener = some ref) (block : MoneroBlock) (s : JniState) :
    self.onNewBlock block s =
      if (attachJVM s).1 = JNI_ERR then (attachJVM s).2
      else detachJVM (attachJVM s).1
        (CallVoidMethod ref "onNewBlock" "(J)V"
          [JValue.long (static_cast_jlong block.height)] (attachJVM s).2) := by
  simp only [WalletJniListener.onNewBlock, hs]

/-- The outcome of `onSyncProgress` for a listener with a Java reference. -/
theorem onSyncProgress_of_ref (self : WalletJniListener) (ref : JObject)
    (hs : self.jlistener = some ref)
    (startHeight numBlocksDone numBlocksTotal percentDone : Nat) (message : String)
    (s : JniState) :
    self.onSyncProgress startHeight numBlocksDone numBlocksTotal percentDone message s =
      if (attachJVM s).1 = JNI_ERR then (attachJVM s).2
      else detachJVM (attachJVM s).1
        (CallVoidMethod ref "onSyncProgress" "(JJJDLjava/lang/String;)V"
          [JValue.long (static_cast_jlong startHeight),
           JValue.long (static_cast_jlong numBlocksDone),
           JValue.long (static_cast_jlong numBlocksTotal),
           JValue.double percentDone, JValue.string (cStringOf message)]
          (attachJVM s).2) := by
  simp only [WalletJniListener.onSyncProgress, hs, NewStringUTF]

/-- What a delivery attempt does to the log, the Java calls and the pending
exception, for any invocation of a listener method. -/
theorem delivery_frame (ref : JObject) (name sig : String) (args : List JValue)
    (s : JniState) :
    let out := if (attachJVM s).1 = JNI_ERR then (attachJVM s).2
      else detachJVM (attachJVM s).1 (CallVoidMethod ref name sig args (attachJVM s).2)
    out.trace.filter Effect.isLog
        = s.trace.filter Effect.isLog
          ++ (if (attachJVM s).1 = JNI_ERR then []
              else if (s.exceptionPending || s.listenerRaises) then [Effect.exceptionDescribe]
              else [])
      ∧ out.exceptionPending
        = (if (attachJVM s).1 = JNI_ERR then s.exceptionPending else false)
      ∧ javaCalls out.trace
        = javaCalls s.trace
          ++ (if (attachJVM s).1 = JNI_ERR then []
              else [Effect.callVoidMethod ref name sig args]) := by
  intro out
  obtain ⟨hc, hl, hp, hr⟩ := attachJVM_frame s
  by_cases he : (attachJVM s).1 = JNI_ERR
  · simp only [out, he, if_true, List.append_nil]
    exact ⟨hl, hp, hc⟩
  · obtain ⟨dc, dl, dp⟩ := detachJVM_frame (attachJVM s).1
      (CallVoidMethod ref name sig args (attachJVM s).2)
    simp only [out, he, if_false]
    refine ⟨?_, dp, ?_⟩
    · rw [dl]
      simp only [CallVoidMethod, List.filter_append, hl, hp, hr]
      simp [List.filter, Effect.isLog]
    · rw [dc]
      simp only [CallVoidMethod, javaCalls, List.filter_append]
      simp only [javaCalls] at hc
      rw [hc]
      simp [List.filter, Effect.isCall]

/-! ### Delivery failures -/

/-- C7 (counterexample): on a thread that cannot be attached, `onNewBlock` and
`onSyncProgress` of a listener with a Java reference fail to deliver (`attachJVM`
answers `JNI_ERR`, no Java method is invoked) and write nothing to any log. -/
theorem attach_failure_is_not_logged :
    (attachJVM stateAttachFails).1 = JNI_ERR
      ∧ ((⟨some 1⟩ : WalletJniListener).onNewBlock ⟨100⟩ stateAttachFails).trace
          = [Effect.getEnv, Effect.attachCurrentThread]
      ∧ (((⟨some 1⟩ : WalletJniListener).onNewBlock ⟨100⟩ stateAttachFails).trace.filter
          Effect.isLog) = []
      ∧ ((⟨some 1⟩ : WalletJniListener).onSyncProgress 1 2 3 4 "m" stateAttachFails).trace
          = [Effect.getEnv, Effect.attachCurrentThread]
      ∧ (((⟨some 1⟩ : WalletJniListener).onSyncProgress 1 2 3 4 "m"
          stateAttachFails).trace.filter Effect.isLog) = [] := by
  refine ⟨?_, ?_, ?_, ?_, ?_⟩ <;> decide

/-- C7 (amended): for every notification sent to a listener with a Java reference
(`onNewBlock` or `onSyncProgress`): when the JVM attach fails the callback returns
without writing to any log, and the pending-exception state is what it was; when
the attach succeeds and the Java listener method raises, the exception is logged
once by `ExceptionDescribe`; after every delivery attempt no exception is left
pending, so no error reaches the caller. -/
theorem delivery_failures_are_suppressed (self : WalletJniListener) (ref : JObject)
    (hs : self.jlistener = some ref) (c : ListenerCall) (s : JniState) :
    (self.notify c s).trace.filter Effect.isLog
        = s.trace.filter Effect.isLog
          ++ (if (attachJVM s).1 = JNI_ERR then []
              else if (s.exceptionPending || s.listenerRaises) then [Effect.exceptionDescribe]
              else [])
      ∧ (self.notify c s).exceptionPending
        = (if (attachJVM s).1 = JNI_ERR then s.exceptionPending else false) := by
  cases c with
  | newBlock block =>
    simp only [WalletJniListener.notify]
    rw [onNewBlock_of_ref self ref hs]
    exact ⟨(delivery_frame ref _ _ _ s).1, (delivery_frame ref _ _ _ s).2.1⟩
  | syncProgress a b c p m =>
    simp only [WalletJniListener.notify]
    rw [onSyncProgress_of_ref self ref hs]
    exact ⟨(delivery_frame ref _ _ _ s).1, (delivery_frame ref _ _ _ s).2.1⟩

/-- C7 (amended), at a concrete input: a new-block notification on a detached
thread whose Java listener raises. -/
theorem delivery_failures_are_suppressed_witness :
    (⟨some 1⟩ : WalletJniListener).jlistener = some 1
      ∧ (attachJVM stateListenerRaises).1 ≠ JNI_ERR
      ∧ (((⟨some 1⟩ : WalletJniListener).notify (ListenerCall.newBlock ⟨100⟩)
            stateListenerRaises).trace.filter Effect.isLog
          = stateListenerRaises.trace.filter Effect.isLog
            ++ (if (attachJVM stateListenerRaises).1 = JNI_ERR then []
                else if (stateListenerRaises.exceptionPending
                    || stateListenerRaises.listenerRaises) then [Effect.exceptionDescribe]
                else [])
        ∧ ((⟨some 1⟩ : WalletJniListener).notify (ListenerCall.newBlock ⟨100⟩)
            stateListenerRaises).exceptionPending
          = (if (attachJVM stateListenerRaises).1 = JNI_ERR
              then stateListenerRaises.exceptionPending else false)) :=
  ⟨rfl, by decide,
    delivery_failures_are_suppressed ⟨some 1⟩ 1 rfl (ListenerCall.newBlock ⟨100⟩)
      stateListenerRaises⟩

/-! ### Delivery of notifications -/

/-- The conversion to `jlong` keeps the value modulo `2^64` and lands in the signed
64-bit range. -/
theorem static_cast_jlong_spec (v : Nat) :
    (static_cast_jlong v - (v : Int)) % 2 ^ 64 = 0
      ∧ -(2 ^ 63) ≤ static_cast_jlong v ∧ static_cast_jlong v < 2 ^ 63
      ∧ (v < 2 ^ 63 → static_cast_jlong v = (v : Int))
      ∧ (2 ^ 63 ≤ v → v < 2 ^ 64 → static_cast_jlong v = (v : Int) - 2 ^ 64
          ∧ static_cast_jlong v < 0) := by
  unfold static_cast_jlong
  norm_num
  split <;> omega

/-- C10 (counterexample): for the message `a`, NUL, `b` the Java method
`onSyncProgress` receives the string "a", not the message. -/
theorem onSyncProgress_cuts_message_at_nul :
    javaCalls ((⟨some 1⟩ : WalletJniListener).onSyncProgress 1 2 3 4 nulMessage
          (sampleState (sampleWallet ⟨"", "", ""⟩ 0))).trace
        = [Effect.callVoidMethod 1 "onSyncProgress" "(JJJDLjava/lang/String;)V"
            [JValue.long 1, JValue.long 2, JValue.long 3, JValue.double 4, JValue.string "a"]]
      ∧ nulMessage ≠ "a"
      ∧ nulMessage.length = 3 := by
  refine ⟨?_, ?_, ?_⟩ <;> decide

/-- C10 (amended): for every listener with a live Java reference and a successful JVM
attach, `onSyncProgress` invokes the Java method `onSyncProgress` exactly once, with
start height, blocks done, blocks total, percent done and message in that order,
the message being passed as its text up to the first NUL character (the whole
message when it has none), and `onNewBlock` invokes the Java method `onNewBlock`
exactly once with the height of the block.  Each unsigned 64-bit value is passed as
the signed 64-bit integer congruent to it modulo `2^64`: the same value below
`2^63`, a negative one from `2^63` on. -/
theorem callbacks_deliver_once (self : WalletJniListener) (ref : JObject)
    (hs : self.jlistener = some ref) (s : JniState) (ha : (attachJVM s).1 ≠ JNI_ERR)
    (block : MoneroBlock) (startHeight numBlocksDone numBlocksTotal percentDone : Nat)
    (message : String) :
    javaCalls (self.onSyncProgress startHeight numBlocksDone numBlocksTotal percentDone
          message s).trace
        = javaCalls s.trace
          ++ [Effect.callVoidMethod ref "onSyncProgress" "(JJJDLjava/lang/String;)V"
              [JValue.long (static_cast_jlong startHeight),
               JValue.long (static_cast_jlong numBlocksDone),
               JValue.long (static_cast_jlong numBlocksTotal),
               JValue.double percentDone, JValue.string (cStringOf message)]]
      ∧ (Char.ofNat 0 ∉ message.data → cStringOf message = message)
      ∧ Char.ofNat 0 ∉ (cStringOf message).data
      ∧ (cStringOf message).data <+: message.data
      ∧ (Char.ofNat 0 ∈ message.data →
          ∃ rest, message.data = (cStringOf message).data ++ Char.ofNat 0 :: rest)
      ∧ javaCalls (self.onNewBlock block s).trace
        = javaCalls s.trace
          ++ [Effect.callVoidMethod ref "onNewBlock" "(J)V"
              [JValue.long (static_cast_jlong block.height)]]
      ∧ (∀ v : Nat, (static_cast_jlong v - (v : Int)) % 2 ^ 64 = 0
          ∧ -(2 ^ 63) ≤ static_cast_jlong v ∧ static_cast_jlong v < 2 ^ 63
          ∧ (v < 2 ^ 63 → static_cast_jlong v = (v : Int))
          ∧ (2 ^ 63 ≤ v → v < 2 ^ 64 → static_cast_jlong v < 0)) := by
  obtain ⟨c1, c2, c3, c4⟩ := cStringOf_spec message
  refine ⟨?_, c3, c1, c2, c4, ?_, ?_⟩
  · rw [onSyncProgress_of_ref self ref hs]
    have h := (delivery_frame ref "onSyncProgress" "(JJJDLjava/lang/String;)V"
      [JValue.long (static_cast_jlong startHeight),
       JValue.long (static_cast_jlong numBlocksDone),
       JValue.long (static_cast_jlong numBlocksTotal),
       JValue.double percentDone, JValue.string (cStringOf message)] s).2.2
    simpa only [ha, if_false] using h
  · rw [onNewBlock_of_ref self ref hs]
    have h := (delivery_frame ref "onNewBlock" "(J)V"
      [JValue.long (static_cast_jlong block.height)] s).2.2
    simpa only [ha, if_false] using h
  · intro v
    obtain ⟨h1, h2, h3, h4, h5⟩ := static_cast_jlong_spec v
    exact ⟨h1, h2, h3, h4, fun a b => (h5 a b).2⟩

/-- C10 (amended), at a concrete input: a detached thread that attaches, a block of
height `2^64 - 1` and a progress notification with the counts `2^63`, `5` and `7`
and the message "m". -/
theorem callbacks_deliver_once_witness :
    (⟨some 1⟩ : WalletJniListener).jlistener = some 1
      ∧ (attachJVM stateListenerRaises).1 ≠ JNI_ERR
      ∧ static_cast_jlong (2 ^ 64 - 1) = -1
      ∧ static_cast_jlong (2 ^ 63) = -9223372036854775808
      ∧ static_cast_jlong 5 = 5
      ∧ cStringOf "m" = "m"
      ∧ javaCalls ((⟨some 1⟩ : WalletJniListener).onNewBlock ⟨2 ^ 64 - 1⟩
          stateListenerRaises).trace
          = [Effect.callVoidMethod 1 "onNewBlock" "(J)V" [JValue.long (-1)]]
      ∧ javaCalls ((⟨some 1⟩ : WalletJniListener).onSyncProgress (2 ^ 63) 5 7 9 "m"
            stateListenerRaises).trace
          = javaCalls stateListenerRaises.trace
            ++ [Effect.callVoidMethod 1 "onSyncProgress" "(JJJDLjava/lang/String;)V"
                [JValue.long (static_cast_jlong (2 ^ 63)),
                 JValue.long (static_cast_jlong 5),
                 JValue.long (static_cast_jlong 7),
                 JValue.double 9, JValue.string (cStringOf "m")]] :=
  ⟨rfl, by decide, by decide, by decide, by decide, by decide, by decide,
    (callbacks_deliver_once ⟨some 1⟩ 1 rfl stateListenerRaises (by decide)
      ⟨2 ^ 64 - 1⟩ (2 ^ 63) 5 7 9 "m").1⟩

/-! ### Decimal text of balances -/

/-- The digit character of `d` reads back as `d`. -/
theorem digitValue_digitChar (d : Nat) (h : d < 10) : digitValue (digitChar d) = some d := by
  interval_cases d <;> rfl

/-- The digit loop, given enough room for the digits of `n`, writes in front of the
accumulator a non-empty run of digits without leading zero (unless it is the single
digit zero) that reads as `n`. -/
theorem lcast_put_unsigned_spec (fuel : Nat) :
    ∀ (n : Nat) (acc : List Char), 0 < fuel → n < 10 ^ fuel →
      ∃ pre : List Char, lcast_put_unsigned fuel n acc = pre ++ acc
        ∧ pre ≠ []
        ∧ (∀ c ∈ pre, (digitValue c).isSome = true)
        ∧ (pre.head? = some '0' → pre = ['0'])
        ∧ ∀ rest : List Char, parseDigits (pre ++ rest) 0 = parseDigits rest n := by
  induction fuel with
  | zero => intro n acc h; exact absurd h (lt_irrefl 0)
  | succ fuel ih =>
    intro n acc _ hn
    have hd : n % 10 < 10 := Nat.mod_lt n (by decide)
    by_cases h0 : n / 10 = 0
    · have hn10 : n % 10 = n := by omega
      refine ⟨[digitChar (n % 10)], ?_, by simp, ?_, ?_, ?_⟩
      · simp [lcast_put_unsigned, h0]
      · intro c hc
        rw [List.mem_singleton] at hc
        rw [hc, digitValue_digitChar _ hd]
        rfl
      · intro hh
        simp only [List.head?_cons, Option.some.injEq] at hh
        rw [hh]
      · intro rest
        simp only [List.singleton_append, parseDigits, digitValue_digitChar _ hd]
        rw [hn10]
        simp
    · have hfuel : 0 < fuel := by
        rcases Nat.eq_zero_or_pos fuel with hz | hz
        · subst hz
          omega
        · exact hz
      have hlt : n / 10 < 10 ^ fuel := by
        rw [pow_succ] at hn
        exact Nat.div_lt_of_lt_mul (by rw [Nat.mul_comm]; exact hn)
      obtain ⟨pre, hpre, hne, hdig, hlead, hparse⟩ :=
        ih (n / 10) (digitChar (n % 10) :: acc) hfuel hlt
      refine ⟨pre ++ [digitChar (n % 10)], ?_, by simp, ?_, ?_, ?_⟩
      · simp [lcast_put_unsigned, h0, hpre]
      · intro c hc
        rw [List.mem_append, List.mem_singleton] at hc
        rcases hc with hc | hc
        · exact hdig c hc
        · rw [hc, digitValue_digitChar _ hd]
          rfl
      · intro hh
        exfalso
        have hhead : pre.head? = some '0' := by
          cases pre with
          | nil => exact absurd rfl hne
          | cons c cs => simpa using hh
        have hz := hparse []
        rw [hlead hhead] at hz
        simp [parseDigits, digitValue] at hz
        exact h0 hz.symm
      · intro rest
        rw [List.append_assoc, hparse]
        simp only [List.singleton_append, parseDigits, digitValue_digitChar _ hd]
        congr 1
        omega

/-- The text of an unsigned 64-bit amount is its plain base-10 form. -/
theorem lexical_cast_isDecimalOf (b : Nat) (hb : b < 2 ^ 64) :
    IsDecimalOf (NewStringUTF (lexical_cast b)) b := by
  have hmod : b % 2 ^ 64 = b := Nat.mod_eq_of_lt hb
  have hlt : b < 10 ^ 20 := lt_trans hb (by norm_num)
  obtain ⟨pre, hpre, hne, hdig, hlead, hparse⟩ :=
    lcast_put_unsigned_spec 20 b [] (by decide) hlt
  have hdata : (lexical_cast b).data = pre := by
    unfold lexical_cast
    rw [hmod, hpre, List.append_nil]
  have hnul : Char.ofNat 0 ∉ (lexical_cast b).data := by
    intro hm
    rw [hdata] at hm
    have hd := hdig _ hm
    simp [digitValue] at hd
  have hcs : NewStringUTF (lexical_cast b) = JValue.string (lexical_cast b) := by
    unfold NewStringUTF
    rw [(cStringOf_spec (lexical_cast b)).2.2.1 hnul]
  rw [hcs]
  show (lexical_cast b).data ≠ []
    ∧ (∀ c ∈ (lexical_cast b).data, (digitValue c).isSome = true)
    ∧ ((lexical_cast b).data.head? = some '0' → lexical_cast b = "0")
    ∧ parseDecimal (lexical_cast b) = some b
  refine ⟨?_, ?_, ?_, ?_⟩
  · rw [hdata]; exact hne
  · rw [hdata]; exact hdig
  · rw [hdata]
    intro hh
    have hp := hlead hh
    rw [← hdata] at hp
    exact String.ext hp
  · have h := hparse []
    rw [List.append_nil] at h
    unfold parseDecimal
    rw [hdata]
    cases pre with
    | nil => exact absurd rfl hne
    | cons c cs => simpa [parseDigits] using h

/-- The conversion of a `jint` index to `uint32_t` keeps a non-negative index and
adds `2^32` to a negative one. -/
theorem static_cast_uint32_spec (v : Int) (hlo : -(2 ^ 31) ≤ v) (hhi : v < 2 ^ 31) :
    (0 ≤ v → (static_cast_uint32 v : Int) = v)
      ∧ (v < 0 → (static_cast_uint32 v : Int) = v + 2 ^ 32) := by
  unfold static_cast_uint32
  norm_num at hlo hhi ⊢
  omega

/-- A natural index that fits a `jint` reaches the wallet as it is. -/
theorem static_cast_uint32_natCast (i : Nat) (hi : i < 2 ^ 31) :
    static_cast_uint32 (i : Int) = i := by
  have h := (static_cast_uint32_spec (i : Int) (by norm_num; omega) (by norm_num at hi ⊢; omega)).1
    (Int.natCast_nonneg i)
  exact Int.ofNat_inj.mp h

/-- C5: for every unsigned 64-bit amount `b` that the wallet returns for a scope
(the wallet, the account `accountIdx`, the subaddress `subaddressIdx` of the account
`accountIdx`), the balance accessor and the unlocked-balance accessor called with
the indices of that scope query the wallet for exactly that scope and return the
base-10 text of `b`: digits only, at least one, no leading zero unless the text is
"0"; reading that text as a natural number gives `b` again, for every `b` up to
`2^64 - 1`. -/
theorem balance_accessors_return_decimal (s : JniState) (accountIdx subaddressIdx : Nat)
    (ha : accountIdx < 2 ^ 31) (hsub : subaddressIdx < 2 ^ 31)
    (b : Nat) (hb : b < 2 ^ 64) :
    (s.wallet.balance = b → IsDecimalOf (getBalanceWalletJni s).1 b)
      ∧ (s.wallet.balanceAccount accountIdx = b →
          IsDecimalOf (getBalanceAccountJni (accountIdx : Int) s).1 b)
      ∧ (s.wallet.balanceSubaddress accountIdx subaddressIdx = b →
          IsDecimalOf (getBalanceSubaddressJni (accountIdx : Int) (subaddressIdx : Int) s).1 b)
      ∧ (s.wallet.unlockedBalance = b → IsDecimalOf (getUnlockedBalanceWalletJni s).1 b)
      ∧ (s.wallet.unlockedBalanceAccount accountIdx = b →
          IsDecimalOf (getUnlockedBalanceAccountJni (accountIdx : Int) s).1 b)
      ∧ (s.wallet.unlockedBalanceSubaddress accountIdx subaddressIdx = b →
          IsDecimalOf
            (getUnlockedBalanceSubaddressJni (accountIdx : Int) (subaddressIdx : Int) s).1 b)
      ∧ (getBalanceWalletJni s).2.trace.getLast?
          = some (Effect.walletGetBalance false [])
      ∧ (getBalanceAccountJni (accountIdx : Int) s).2.trace.getLast?
          = some (Effect.walletGetBalance false [accountIdx])
      ∧ (getBalanceSubaddressJni (accountIdx : Int) (subaddressIdx : Int) s).2.trace.getLast?
          = some (Effect.walletGetBalance false [accountIdx, subaddressIdx])
      ∧ (getUnlockedBalanceWalletJni s).2.trace.getLast?
          = some (Effect.walletGetBalance true [])
      ∧ (getUnlockedBalanceAccountJni (accountIdx : Int) s).2.trace.getLast?
          = some (Effect.walletGetBalance true [accountIdx])
      ∧ (getUnlockedBalanceSubaddressJni (accountIdx : Int) (subaddressIdx : Int)
            s).2.trace.getLast?
          = some (Effect.walletGetBalance true [accountIdx, subaddressIdx]) := by
  have hmod : b % 18446744073709551616 = b := Nat.mod_eq_of_lt (by omega)
  have key := lexical_cast_isDecimalOf b hb
  have ca := static_cast_uint32_natCast accountIdx ha
  have cs := static_cast_uint32_natCast subaddressIdx hsub
  refine ⟨?_, ?_, ?_, ?_, ?_, ?_, ?_, ?_, ?_, ?_, ?_, ?_⟩
  · intro h
    simpa [getBalanceWalletJni, walletGetBalance, cout, JniState.emit, h, hmod] using key
  · intro h
    simpa [getBalanceAccountJni, walletGetBalance, cout, JniState.emit, ca, h, hmod] using key
  · intro h
    simpa [getBalanceSubaddressJni, walletGetBalance, cout, JniState.emit, ca, cs, h, hmod]
      using key
  · intro h
    simpa [getUnlockedBalanceWalletJni, walletGetBalance, cout, JniState.emit, h, hmod]
      using key
  · intro h
    simpa [getUnlockedBalanceAccountJni, walletGetBalance, cout, JniState.emit, ca, h, hmod]
      using key
  · intro h
    simpa [getUnlockedBalanceSubaddressJni, walletGetBalance, cout, JniState.emit, ca, cs, h,
      hmod] using key
  · simp [getBalanceWalletJni, walletGetBalance, cout, JniState.emit]
  · simp [getBalanceAccountJni, walletGetBalance, cout, JniState.emit, ca]
  · simp [getBalanceSubaddressJni, walletGetBalance, cout, JniState.emit, ca, cs]
  · simp [getUnlockedBalanceWalletJni, walletGetBalance, cout, JniState.emit]
  · simp [getUnlockedBalanceAccountJni, walletGetBalance, cout, JniState.emit, ca]
  · simp [getUnlockedBalanceSubaddressJni, walletGetBalance, cout, JniState.emit, ca, cs]

/-- C5, at a concrete input: a wallet whose balances differ from scope to scope,
queried for the wallet, for account `3` and for subaddress `4` of account `3`. -/
theorem balance_accessors_return_decimal_witness :
    (3 : Nat) < 2 ^ 31 ∧ (4 : Nat) < 2 ^ 31 ∧ (2 ^ 64 - 1 : Nat) < 2 ^ 64
      ∧ indexedWallet.balance = 2 ^ 64 - 1
      ∧ (getBalanceWalletJni (sampleState indexedWallet)).1
          = JValue.string "18446744073709551615"
      ∧ parseDecimal "18446744073709551615" = some (2 ^ 64 - 1)
      ∧ IsDecimalOf (getBalanceWalletJni (sampleState indexedWallet)).1 (2 ^ 64 - 1)
      ∧ (getBalanceAccountJni 3 (sampleState indexedWallet)).1 = JValue.string "13"
      ∧ IsDecimalOf (getBalanceAccountJni ((3 : Nat) : Int) (sampleState indexedWallet)).1 13
      ∧ (getBalanceSubaddressJni 3 4 (sampleState indexedWallet)).1 = JValue.string "3004"
      ∧ IsDecimalOf (getBalanceSubaddressJni ((3 : Nat) : Int) ((4 : Nat) : Int)
          (sampleState indexedWallet)).1 3004
      ∧ (getUnlockedBalanceWalletJni (sampleState indexedWallet)).1
          = JValue.string "9223372036854775808"
      ∧ IsDecimalOf (getUnlockedBalanceWalletJni (sampleState indexedWallet)).1 (2 ^ 63)
      ∧ (getUnlockedBalanceAccountJni 3 (sampleState indexedWallet)).1 = JValue.string "23"
      ∧ IsDecimalOf (getUnlockedBalanceAccountJni ((3 : Nat) : Int)
          (sampleState indexedWallet)).1 23
      ∧ (getUnlockedBalanceSubaddressJni 3 4 (sampleState indexedWallet)).1
          = JValue.string "6004"
      ∧ IsDecimalOf (getUnlockedBalanceSubaddressJni ((3 : Nat) : Int) ((4 : Nat) : Int)
          (sampleState indexedWallet)).1 6004
      ∧ (getBalanceSubaddressJni ((3 : Nat) : Int) ((4 : Nat) : Int)
            (sampleState indexedWallet)).2.trace.getLast?
          = some (Effect.walletGetBalance false [3, 4]) :=
  ⟨by decide, by decide, by decide, rfl, by decide, by decide,
    (balance_accessors_return_decimal (sampleState indexedWallet) 3 4 (by decide) (by decide)
      (2 ^ 64 - 1) (by decide)).1 rfl,
    by decide,
    (balance_accessors_return_decimal (sampleState indexedWallet) 3 4 (by decide) (by decide)
      13 (by decide)).2.1 rfl,
    by decide,
    (balance_accessors_return_decimal (sampleState indexedWallet) 3 4 (by decide) (by decide)
      3004 (by decide)).2.2.1 rfl,
    by decide,
    (balance_accessors_return_decimal (sampleState indexedWallet) 3 4 (by decide) (by decide)
      (2 ^ 63) (by decide)).2.2.2.1 rfl,
    by decide,
    (balance_accessors_return_decimal (sampleState indexedWallet) 3 4 (by decide) (by decide)
      23 (by decide)).2.2.2.2.1 rfl,
    by decide,
    (balance_accessors_return_decimal (sampleState indexedWallet) 3 4 (by decide) (by decide)
      6004 (by decide)).2.2.2.2.2.1 rfl,
    (balance_accessors_return_decimal (sampleState indexedWallet) 3 4 (by decide) (by decide)
      0 (by decide)).2.2.2.2.2.2.2.2.1⟩

/-! ### `syncJni` -/

/-- The conversion of a `jlong` to `uint64_t` keeps a non-negative value and adds
`2^64` to a negative one. -/
theorem static_cast_uint64_spec (v : Int) (hlo : -(2 ^ 63) ≤ v) (hhi : v < 2 ^ 63) :
    (0 ≤ v → (static_cast_uint64 v : Int) = v)
      ∧ (v < 0 → (static_cast_uint64 v : Int) = v + 2 ^ 64) := by
  unfold static_cast_uint64
  norm_num at hlo hhi ⊢
  omega

/-- C9 (counterexample): with a wallet whose sync reports `2^63` fetched blocks, the
Long in element 0 is `-2^63`, not `2^63`; and for the start height `-1` the wallet
is asked to sync from `2^64 - 1`. -/
theorem syncJni_wraps_large_values :
    (fullWallet.syncResult (static_cast_uint64 (-1))).numBlocksFetched = 2 ^ 63
      ∧ (syncJni (-1) (sampleState fullWallet)).1
          = [JValue.boxedLong (-9223372036854775808), JValue.boxedBoolean true]
      ∧ (syncJni (-1) (sampleState fullWallet)).1
          ≠ [JValue.boxedLong (2 ^ 63), JValue.boxedBoolean true]
      ∧ (syncJni (-1) (sampleState fullWallet)).2.trace.filter Effect.isSync
          = [Effect.walletSync 18446744073709551615] := by
  refine ⟨rfl, ?_, ?_, ?_⟩ <;> decide

/-- C9 (amended): for every start height, `syncJni` calls `sync` on the wallet
exactly once, with the start height converted to an unsigned 64-bit value (the
start height itself when it is not negative), and returns a 2-element array: element
0 is a Long holding the `numBlocksFetched` of the result converted to a signed
64-bit integer (the wallet's value when that is below `2^63`), element 1 is a
Boolean holding its `receivedMoney`. -/
theorem syncJni_returns_result (startHeight : Int) (s : JniState) :
    (syncJni startHeight s).1
        = [JValue.boxedLong (static_cast_jlong
            (s.wallet.syncResult (static_cast_uint64 startHeight)).numBlocksFetched),
           JValue.boxedBoolean
            (s.wallet.syncResult (static_cast_uint64 startHeight)).receivedMoney]
      ∧ (syncJni startHeight s).2.trace.filter Effect.isSync
        = s.trace.filter Effect.isSync ++ [Effect.walletSync (static_cast_uint64 startHeight)]
      ∧ (0 ≤ startHeight → startHeight < 2 ^ 63 →
          (static_cast_uint64 startHeight : Int) = startHeight)
      ∧ ((s.wallet.syncResult (static_cast_uint64 startHeight)).numBlocksFetched < 2 ^ 63 →
          static_cast_jlong
            (s.wallet.syncResult (static_cast_uint64 startHeight)).numBlocksFetched
          = ((s.wallet.syncResult (static_cast_uint64 startHeight)).numBlocksFetched : Int)) := by
  refine ⟨?_, ?_, ?_, ?_⟩
  · simp [syncJni, walletSync, cout, JniState.emit, NewObjectArray, SetObjectArrayElement,
      List.replicate]
  · simp [syncJni, walletSync, cout, JniState.emit, List.filter_append, List.filter,
      Effect.isSync]
  · intro h0 h1
    exact (static_cast_uint64_spec startHeight (by omega) h1).1 h0
  · intro h
    exact (static_cast_jlong_spec _).2.2.2.1 h

/-- C9 (amended), at a concrete input: a sync from height `100` on a wallet that
reports no fetched blocks. -/
theorem syncJni_returns_result_witness :
    (syncJni 100 (sampleState (sampleWallet ⟨"", "", ""⟩ 0))).1
        = [JValue.boxedLong 0, JValue.boxedBoolean false]
      ∧ (syncJni 100 (sampleState (sampleWallet ⟨"", "", ""⟩ 0))).2.trace.filter Effect.isSync
        = [Effect.walletSync 100]
      ∧ (static_cast_uint64 100 : Int) = 100 := by
  have h := syncJni_returns_result 100 (sampleState (sampleWallet ⟨"", "", ""⟩ 0))
  exact ⟨by decide, by decide, h.2.2.1 (by decide) (by decide)⟩

/-! ### Attachment state of the calling thread -/

/-- The status `attachJVM` answers, by the state it finds. -/
theorem attachJVM_status (s : JniState) :
    ((attachJVM s).1 = JNI_OK ↔ (s.threadAttached = true ∧ s.versionSupported = true))
      ∧ ((attachJVM s).1 = JNI_EDETACHED ↔ (s.threadAttached = false ∧ s.attachStatus = 0))
      ∧ ((attachJVM s).1 = JNI_ERR ↔
          ((s.threadAttached = true ∧ s.versionSupported = false)
            ∨ (s.threadAttached = false ∧ s.attachStatus ≠ 0))) := by
  rcases attachJVM_cases s with ⟨h1, h2, h⟩ | ⟨h1, h2, h⟩ | ⟨h1, h2, h⟩ | ⟨h1, h2, h⟩ <;>
    rw [h] <;>
    simp [h1, h2, JNI_OK, JNI_ERR, JNI_EDETACHED]

/-- What a delivery attempt does to the attachment of the calling thread, for any
invocation of a listener method. -/
theorem delivery_attachment (ref : JObject) (name sig : String) (args : List JValue)
    (s : JniState) :
    let out := if (attachJVM s).1 = JNI_ERR then (attachJVM s).2
      else detachJVM (attachJVM s).1 (CallVoidMethod ref name sig args (attachJVM s).2)
    out.threadAttached = s.threadAttached
      ∧ out.trace.filter Effect.isDetach
        = s.trace.filter Effect.isDetach
          ++ (if (attachJVM s).1 = JNI_EDETACHED then [Effect.detachCurrentThread] else [])
      ∧ ((attachJVM s).1 = JNI_EDETACHED → (attachJVM s).2.threadAttached = true) := by
  intro out
  rcases attachJVM_cases s with ⟨h1, h2, h⟩ | ⟨h1, h2, h⟩ | ⟨h1, h2, h⟩ | ⟨h1, h2, h⟩
  · simp only [out, h]
    cases hp : (s.exceptionPending || s.listenerRaises) <;>
      simp [detachJVM, ExceptionCheck, ExceptionDescribe, DetachCurrentThread,
        CallVoidMethod, JniState.emit, JNI_OK, JNI_ERR, JNI_EDETACHED, h1, hp,
        List.filter_append, List.filter, Effect.isDetach]
  · simp [out, h, JniState.emit, JNI_ERR, JNI_EDETACHED, List.filter_append, List.filter,
      Effect.isDetach]
  · simp only [out, h]
    cases hp : (s.exceptionPending || s.listenerRaises) <;>
      simp [detachJVM, ExceptionCheck, ExceptionDescribe, DetachCurrentThread,
        CallVoidMethod, JniState.emit, JNI_OK, JNI_ERR, JNI_EDETACHED, h1, hp,
        List.filter_append, List.filter, Effect.isDetach]
  · simp [out, h, JniState.emit, JNI_ERR, JNI_EDETACHED, List.filter_append, List.filter,
      Effect.isDetach, h1]

/-- C11: for every `onNewBlock` or `onSyncProgress` call on a listener with a live
Java reference, the calling thread is attached after the call exactly when it was
attached before.  The call detaches the thread once if `attachJVM` answered
`JNI_EDETACHED`, which is exactly when it found the thread detached and attached
it, and not at all otherwise: a thread found attached (`JNI_OK`) is never
detached, and on `JNI_ERR` (the attach failed or the version is unsupported) the
callback stops right after `attachJVM`, invoking no Java method and detaching
nothing. -/
theorem callbacks_preserve_attachment (self : WalletJniListener) (ref : JObject)
    (hs : self.jlistener = some ref) (c : ListenerCall) (s : JniState) :
    (self.notify c s).threadAttached = s.threadAttached
      ∧ (self.notify c s).trace.filter Effect.isDetach
        = s.trace.filter Effect.isDetach
          ++ (if (attachJVM s).1 = JNI_EDETACHED then [Effect.detachCurrentThread] else [])
      ∧ ((attachJVM s).1 = JNI_EDETACHED ↔
          (s.threadAttached = false ∧ (attachJVM s).2.threadAttached = true))
      ∧ ((attachJVM s).1 = JNI_OK ↔ (s.threadAttached = true ∧ s.versionSupported = true))
      ∧ ((attachJVM s).1 = JNI_ERR ↔
          ((s.threadAttached = true ∧ s.versionSupported = false)
            ∨ (s.threadAttached = false ∧ s.attachStatus ≠ 0)))
      ∧ ((attachJVM s).1 = JNI_ERR →
          self.notify c s = (attachJVM s).2
            ∧ javaCalls (self.notify c s).trace = javaCalls s.trace
            ∧ (self.notify c s).trace.filter Effect.isDetach
              = s.trace.filter Effect.isDetach) := by
  have hout : ∃ name sig args, self.notify c s =
      if (attachJVM s).1 = JNI_ERR then (attachJVM s).2
      else detachJVM (attachJVM s).1 (CallVoidMethod ref name sig args (attachJVM s).2) := by
    cases c with
    | newBlock block =>
      exact ⟨_, _, _, by
        simp only [WalletJniListener.notify]
        exact onNewBlock_of_ref self ref hs block s⟩
    | syncProgress a b c p m =>
      exact ⟨_, _, _, by
        simp only [WalletJniListener.notify]
        exact onSyncProgress_of_ref self ref hs a b c p m s⟩
  obtain ⟨name, sig, args, hn⟩ := hout
  obtain ⟨d1, d2, -⟩ := delivery_attachment ref name sig args s
  obtain ⟨hok, -, herr⟩ := attachJVM_status s
  have hdet : (attachJVM s).1 = JNI_EDETACHED ↔
      (s.threadAttached = false ∧ (attachJVM s).2.threadAttached = true) := by
    rcases attachJVM_cases s with ⟨h1, h2, h⟩ | ⟨h1, h2, h⟩ | ⟨h1, h2, h⟩ | ⟨h1, h2, h⟩ <;>
      rw [h] <;>
      simp [h1, JniState.emit, JNI_OK, JNI_ERR, JNI_EDETACHED]
  refine ⟨?_, ?_, hdet, hok, herr, ?_⟩
  · rw [hn]
    exact d1
  · rw [hn]
    exact d2
  · intro he
    have hne : (attachJVM s).1 ≠ JNI_EDETACHED := by
      rw [he]
      decide
    have hs2 : self.notify c s = (attachJVM s).2 := by
      rw [hn, if_pos he]
    refine ⟨hs2, ?_, ?_⟩
    · rw [hs2]
      exact (attachJVM_frame s).1
    · have h2 := d2
      rw [← hn] at h2
      rw [h2, if_neg hne, List.append_nil]

/-- C11, at concrete inputs: a detached thread that attaches is detached again, an
attached thread stays attached, and a thread that cannot be attached or whose VM
lacks the version is left as it was with no delivery. -/
theorem callbacks_preserve_attachment_witness :
    (⟨some 1⟩ : WalletJniListener).jlistener = some 1
      ∧ stateListenerRaises.threadAttached = false
      ∧ ((⟨some 1⟩ : WalletJniListener).notify (ListenerCall.newBlock ⟨100⟩)
          stateListenerRaises).threadAttached = stateListenerRaises.threadAttached
      ∧ ((⟨some 1⟩ : WalletJniListener).notify (ListenerCall.newBlock ⟨100⟩)
          stateListenerRaises).trace.filter Effect.isDetach = [Effect.detachCurrentThread]
      ∧ ((⟨some 1⟩ : WalletJniListener).notify (ListenerCall.syncProgress 1 2 3 4 "m")
          (sampleState fullWallet)).threadAttached = true
      ∧ ((⟨some 1⟩ : WalletJniListener).notify (ListenerCall.syncProgress 1 2 3 4 "m")
          (sampleState fullWallet)).trace.filter Effect.isDetach = []
      ∧ (attachJVM stateAttachFails).1 = JNI_ERR
      ∧ ((⟨some 1⟩ : WalletJniListener).notify (ListenerCall.newBlock ⟨100⟩)
            stateAttachFails = (attachJVM stateAttachFails).2
          ∧ javaCalls ((⟨some 1⟩ : WalletJniListener).notify (ListenerCall.newBlock ⟨100⟩)
              stateAttachFails).trace = javaCalls stateAttachFails.trace
          ∧ ((⟨some 1⟩ : WalletJniListener).notify (ListenerCall.newBlock ⟨100⟩)
              stateAttachFails).trace.filter Effect.isDetach
            = stateAttachFails.trace.filter Effect.isDetach)
      ∧ (attachJVM stateVersionUnsupported).1 = JNI_ERR
      ∧ ((⟨some 1⟩ : WalletJniListener).notify (ListenerCall.newBlock ⟨100⟩)
          stateVersionUnsupported).threadAttached = true :=
  ⟨rfl, rfl,
    (callbacks_preserve_attachment ⟨some 1⟩ 1 rfl (ListenerCall.newBlock ⟨100⟩)
      stateListenerRaises).1,
    by decide, by decide, by decide, by decide,
    (callbacks_preserve_attachment ⟨some 1⟩ 1 rfl (ListenerCall.newBlock ⟨100⟩)
      stateAttachFails).2.2.2.2.2 (by decide),
    by decide, by decide⟩

end MoneroWalletJni
